import Mathlib

/-! Overview.
Verification of the GreenSVC statistical diagnostic engine and its frontend
presentation layer.

The frontend TypeScript sources (packages/frontend) are embedded directly.
JavaScript numbers are modelled as rationals, nullable values as Option,
JavaScript objects used as string-keyed maps as insertion-ordered association
lists, and the stable Array.prototype.sort with a numeric comparator as
insertion sort by the corresponding relation.

The backend analysis engine (population statistics, z-score normalizer,
severity classifier, correlation analyzer) is not part of the available
sources; those components are modelled from the specification text, and each
such definition carries a doc comment saying so.
-/

/-! Section: Numeric formatting (generateReport.ts, Analysis.tsx) -/

/-- Decimal digit characters of a natural number, most significant first.
Models the digit sequence produced by JavaScript number-to-string conversion
of a nonnegative integer. -/
def natDigits (n : ℕ) : List Char :=
  if h : n < 10 then [Nat.digitChar n]
  else natDigits (n / 10) ++ [Nat.digitChar (n % 10)]
decreasing_by exact Nat.div_lt_self (by omega) (by omega)

/-- Left-pad a character list with zeros to the requested width. -/
def padLeftZeros (l : List Char) (k : ℕ) : List Char :=
  List.replicate (k - l.length) '0' ++ l

/-- The absolute value of a JavaScript number scaled by ten to the requested
number of decimals and rounded to the nearest integer, larger integer on
ties, as the ECMAScript toFixed specification prescribes. -/
def toFixedScaled (v : ℚ) (d : ℕ) : ℕ :=
  (⌊|v| * (10 : ℚ) ^ d + 1 / 2⌋).toNat

/-- Character sequence of the ECMAScript Number.prototype.toFixed result:
an optional minus sign, the integer digits, and for a positive number of
decimals a dot followed by exactly that many fraction digits. -/
def toFixedChars (v : ℚ) (d : ℕ) : List Char :=
  (if v < 0 then ['-'] else []) ++ natDigits (toFixedScaled v d / 10 ^ d) ++
    (if d = 0 then [] else
      '.' :: padLeftZeros (natDigits (toFixedScaled v d % 10 ^ d)) d)

/-- Model of v.toFixed(d) for a JavaScript number v. -/
def toFixed (v : ℚ) (d : ℕ) : String :=
  String.mk (toFixedChars v d)

/-- Embeds fmt from packages/frontend/src/utils/generateReport.ts lines 7 to 10:
null or undefined renders as a dash, otherwise v.toFixed(decimals); the source
defaults decimals to 2. -/
def fmt : Option ℚ → ℕ → String
  | none, _ => "-"
  | some v, decimals => toFixed v decimals

/-- Embeds formatNum from packages/frontend/src/pages/Analysis.tsx lines 115
to 118, a second copy of the same formatter; the source defaults decimals
to 2. -/
def formatNum : Option ℚ → ℕ → String
  | none, _ => "-"
  | some v, decimals => toFixed v decimals

theorem digitChar_ne_dash : ∀ n < 10, Nat.digitChar n ≠ '-' := by decide

theorem natDigits_ne_nil (n : ℕ) : natDigits n ≠ [] := by
  rw [natDigits]
  split <;> simp

theorem natDigits_ne_dash (n : ℕ) : natDigits n ≠ ['-'] := by
  rw [natDigits]
  split
  · rename_i h
    intro hc
    simp only [List.cons.injEq, and_true] at hc
    exact digitChar_ne_dash n h hc
  · intro hc
    have hlen := congrArg List.length hc
    simp at hlen
    exact natDigits_ne_nil _ hlen

theorem natDigits_length_pos (n : ℕ) : 0 < (natDigits n).length := by
  cases h : natDigits n with
  | nil => exact absurd h (natDigits_ne_nil n)
  | cons c cs => simp

theorem toFixedChars_ne_dash (v : ℚ) (d : ℕ) : toFixedChars v d ≠ ['-'] := by
  unfold toFixedChars
  intro hc
  by_cases hd : d = 0
  · rw [if_pos hd, List.append_nil] at hc
    by_cases hneg : v < 0
    · rw [if_pos hneg, List.singleton_append] at hc
      simp only [List.cons.injEq, true_and] at hc
      exact natDigits_ne_nil _ hc
    · rw [if_neg hneg, List.nil_append] at hc
      exact natDigits_ne_dash _ hc
  · rw [if_neg hd] at hc
    have hlen := congrArg List.length hc
    have hip := natDigits_length_pos (toFixedScaled v d / 10 ^ d)
    by_cases hneg : v < 0 <;>
      simp [hneg, List.length_append] at hlen <;> omega

theorem toFixed_ne_dash (v : ℚ) (d : ℕ) : toFixed v d ≠ "-" := by
  intro hc
  exact toFixedChars_ne_dash v d (congrArg String.data hc)

/-- C10: the report and table formatters fmt and formatNum render the dash
string exactly for a null or undefined input; on a present value they render
the toFixed form of that value, and the two copies agree everywhere, so an
unknown value is never rendered as the number zero. -/
theorem fmt_dash_iff_null (v : Option ℚ) (d : ℕ) (x : ℚ) :
    (fmt v d = "-" ↔ v = none) ∧ fmt v d = formatNum v d ∧
      fmt (some x) d = toFixed x d ∧ fmt none d = "-" := by
  refine ⟨⟨fun h => ?_, fun h => by subst h; rfl⟩, ?_, rfl, rfl⟩
  · cases v with
    | none => rfl
    | some x => exact absurd h (toFixed_ne_dash x d)
  · cases v <;> rfl

/-- C10 witness: the formatters evaluated at a present and at an absent
value, via the main theorem. -/
theorem fmt_dash_iff_null_witness :
    (fmt (some 1) 2 = "-" ↔ (some (1 : ℚ) = none)) ∧ fmt none 2 = "-" :=
  ⟨(fmt_dash_iff_null (some 1) 2 1).1, (fmt_dash_iff_null none 2 1).2.2.2⟩

/-! Section: Significance stars (Analysis.tsx lines 120 to 126, chart component) -/

/-- Embeds significanceStars from packages/frontend/src/pages/Analysis.tsx
lines 120 to 126: empty for an absent p-value, then three, two or one stars
by the 0.001, 0.01 and 0.05 bands. -/
def significanceStars : Option ℚ → String
  | none => ""
  | some p =>
    if p < 0.001 then "***"
    else if p < 0.01 then "**"
    else if p < 0.05 then "*"
    else ""

/-- Embeds the second copy of significanceStars from the chart component
(src/unnamed/part_005 lines 1050 to 1056), textually identical to the
Analysis page copy. -/
def significanceStarsChart : Option ℚ → String
  | none => ""
  | some p =>
    if p < 0.001 then "***"
    else if p < 0.01 then "**"
    else if p < 0.05 then "*"
    else ""

/-- C8: the two copies of significanceStars agree on every input, realize the
documented banding, return the empty string on an absent p-value, and the
number of stars is non-increasing in p. -/
theorem significanceStars_spec :
    (∀ p : Option ℚ, significanceStars p = significanceStarsChart p) ∧
    (∀ q : ℚ, q < 0.001 → significanceStars (some q) = "***") ∧
    (∀ q : ℚ, 0.001 ≤ q → q < 0.01 → significanceStars (some q) = "**") ∧
    (∀ q : ℚ, 0.01 ≤ q → q < 0.05 → significanceStars (some q) = "*") ∧
    (∀ q : ℚ, 0.05 ≤ q → significanceStars (some q) = "") ∧
    significanceStars none = "" ∧
    (∀ p q : ℚ, p ≤ q →
      (significanceStars (some q)).length ≤ (significanceStars (some p)).length) := by
  refine ⟨fun p => by cases p <;> rfl, ?_, ?_, ?_, ?_, rfl, ?_⟩
  · intro q h
    simp [significanceStars, h]
  · intro q h1 h2
    rw [significanceStars, if_neg (by linarith), if_pos h2]
  · intro q h1 h2
    rw [significanceStars, if_neg (by linarith), if_neg (by linarith), if_pos h2]
  · intro q h1
    rw [significanceStars, if_neg (by linarith), if_neg (by linarith),
      if_neg (by linarith)]
  · intro p q hpq
    rw [significanceStars, significanceStars]
    split_ifs <;> first | decide | linarith

/-- C8 witness: star banding and monotonicity evaluated at concrete p-values,
via the main theorem. -/
theorem significanceStars_spec_witness :
    significanceStars (some (1 / 2000)) = "***" ∧
    significanceStars (some (1 / 200)) = "**" ∧
    significanceStars (some (1 / 30)) = "*" ∧
    significanceStars (some (1 / 2)) = "" ∧
    (significanceStars (some (1 / 2))).length ≤
      (significanceStars (some (1 / 2000))).length :=
  ⟨significanceStars_spec.2.1 _ (by norm_num),
   significanceStars_spec.2.2.1 _ (by norm_num) (by norm_num),
   significanceStars_spec.2.2.2.1 _ (by norm_num) (by norm_num),
   significanceStars_spec.2.2.2.2.1 _ (by norm_num),
   significanceStars_spec.2.2.2.2.2.2 _ _ (by norm_num)⟩

/-! Section: Zone diagnostics presentation data model (frontend types.ts) -/

/-- A zone problem as in the frontend ZoneProblem type, restricted to the
fields the presentation layer reads. -/
structure ZoneProblem where
  indicator_id : String
  indicator_name : String
  layer : String
  z_score : ℚ
  priority : ℤ
  classification : String
deriving DecidableEq

/-- A zone diagnostic as in the frontend ZoneDiagnostic type; the
problems_by_layer record is modelled as an insertion-ordered association
list, so Object.values is the list of second components. -/
structure ZoneDiagnostic where
  zone_id : String
  zone_name : String
  area_sqm : ℚ
  status : String
  total_priority : ℤ
  problems_by_layer : List (String × List ZoneProblem)
deriving DecidableEq

/-! Section: High-priority problem counts (C6) -/

/-- Embeds the count from generateReport.ts lines 65 to 67: values of
problems_by_layer, flattened, filtered to priority at least 4, length. -/
def reportHighProblems (d : ZoneDiagnostic) : ℕ :=
  (((d.problems_by_layer.map Prod.snd).flatten).filter
    (fun p => decide (4 ≤ p.priority))).length

/-- Embeds the identical count from Reports.tsx lines 253 to 255. -/
def reportsPageHighProblems (d : ZoneDiagnostic) : ℕ :=
  (((d.problems_by_layer.map Prod.snd).flatten).filter
    (fun p => decide (4 ≤ p.priority))).length

/-- Embeds the identical count from the Analysis page diagnostic card,
Analysis.tsx lines 760 to 762. -/
def analysisCardHighProblems (d : ZoneDiagnostic) : ℕ :=
  (((d.problems_by_layer.map Prod.snd).flatten).filter
    (fun p => decide (4 ≤ p.priority))).length

/-- The specification-side count: the number of ZoneProblems across all
layers of the zone whose priority is at least 4, as a sum of per-layer
counts. -/
def countHighPriorityProblems (d : ZoneDiagnostic) : ℕ :=
  ((d.problems_by_layer.map Prod.snd).map
    (fun ps => ps.countP (fun p => decide (4 ≤ p.priority)))).sum

theorem countP_flatten {α : Type} (p : α → Bool) (L : List (List α)) :
    L.flatten.countP p = (L.map (fun l => l.countP p)).sum := by
  induction L with
  | nil => simp
  | cons l ls ih => simp [List.countP_append, ih]

/-- C6: in all three presentation sites, the displayed high-severity problem
count equals the number of ZoneProblems across all layers of the zone whose
priority is at least 4. -/
theorem highProblems_eq_count (d : ZoneDiagnostic) :
    reportHighProblems d = countHighPriorityProblems d ∧
    reportsPageHighProblems d = countHighPriorityProblems d ∧
    analysisCardHighProblems d = countHighPriorityProblems d := by
  have h : reportHighProblems d = countHighPriorityProblems d := by
    unfold reportHighProblems countHighPriorityProblems
    rw [← List.countP_eq_length_filter, countP_flatten]
  exact ⟨h, h, h⟩

/-! Section: Ranked zone lists (C5) -/

/-- Embeds the sort from generateReport.ts line 59: a stable sort of the
zone diagnostics by the comparator b.total_priority minus a.total_priority,
that is, total_priority descending. -/
def reportSortedDiags (diags : List ZoneDiagnostic) : List ZoneDiagnostic :=
  List.insertionSort (fun a b => b.total_priority ≤ a.total_priority) diags

/-- Embeds sortedDiagnostics from Analysis.tsx lines 415 to 418: the same
stable sort by total_priority descending. -/
def sortedDiagnostics (diags : List ZoneDiagnostic) : List ZoneDiagnostic :=
  List.insertionSort (fun a b => b.total_priority ≤ a.total_priority) diags

/-- The diagnostic record consumed by the ZonePriorityChart component
(src/unnamed/part_005), which also carries a composite z-score. -/
structure ChartZoneDiagnostic where
  zone_name : String
  composite_zscore : ℚ
  total_priority : ℤ
  status : String
deriving DecidableEq

/-- Embeds the sort from ZonePriorityChart (src/unnamed/part_005 lines 994
to 1003): a stable sort by the comparator b.composite_zscore minus
a.composite_zscore, that is, composite z-score descending, not
total_priority descending. -/
def zonePriorityChartOrder (diagnostics : List ChartZoneDiagnostic) :
    List ChartZoneDiagnostic :=
  List.insertionSort (fun a b => b.composite_zscore ≤ a.composite_zscore)
    diagnostics

/-- A chart input whose composite z-score ranks it first although its
total priority is smallest. -/
def chartDiagA : ChartZoneDiagnostic :=
  { zone_name := "Zone A", composite_zscore := 5, total_priority := 1,
    status := "Good" }

/-- A chart input with the largest total priority but the smallest composite
z-score. -/
def chartDiagB : ChartZoneDiagnostic :=
  { zone_name := "Zone B", composite_zscore := 0, total_priority := 10,
    status := "Poor" }

/-- C5 counterexample: the zone priority chart does not order zones by
total_priority descending; on the concrete pair chartDiagB, chartDiagA it
puts the zone with total priority 1 before the zone with total priority
10, because it sorts by composite z-score. -/
theorem zonePriorityChart_not_total_priority_sorted :
    zonePriorityChartOrder [chartDiagB, chartDiagA] = [chartDiagA, chartDiagB] ∧
    ¬ List.Pairwise (fun a b => b.total_priority ≤ a.total_priority)
      (zonePriorityChartOrder [chartDiagB, chartDiagA]) := by
  constructor
  · decide
  · decide

/-- C5 amended: the markdown report overview and the Analysis page
diagnostic cards rank zones by total_priority descending, while the zone
priority chart ranks zones by composite z-score descending. -/
theorem presentation_sort_orders (l : List ZoneDiagnostic)
    (lc : List ChartZoneDiagnostic) :
    List.Pairwise (fun a b => b.total_priority ≤ a.total_priority)
      (reportSortedDiags l) ∧
    List.Pairwise (fun a b => b.total_priority ≤ a.total_priority)
      (sortedDiagnostics l) ∧
    List.Pairwise (fun a b => b.composite_zscore ≤ a.composite_zscore)
      (zonePriorityChartOrder lc) := by
  haveI h1 : IsTotal ZoneDiagnostic
      (fun a b => b.total_priority ≤ a.total_priority) :=
    ⟨fun a b => le_total _ _⟩
  haveI h2 : IsTrans ZoneDiagnostic
      (fun a b => b.total_priority ≤ a.total_priority) :=
    ⟨fun a b c hab hbc => le_trans hbc hab⟩
  haveI h3 : IsTotal ChartZoneDiagnostic
      (fun a b => b.composite_zscore ≤ a.composite_zscore) :=
    ⟨fun a b => le_total _ _⟩
  haveI h4 : IsTrans ChartZoneDiagnostic
      (fun a b => b.composite_zscore ≤ a.composite_zscore) :=
    ⟨fun a b c hab hbc => le_trans hbc hab⟩
  exact ⟨List.sorted_insertionSort _ l, List.sorted_insertionSort _ l,
    List.sorted_insertionSort _ lc⟩

/-! Section: Threshold configuration state (C7, Analysis.tsx) -/

/-- The three z-score threshold state variables of the Analysis page,
Analysis.tsx lines 167 to 169. -/
structure ThresholdState where
  zscoreModerate : ℚ
  zscoreSignificant : ℚ
  zscoreCritical : ℚ
deriving DecidableEq

/-- Embeds the useState initializers of Analysis.tsx lines 167 to 169:
0.5, 1.0 and 1.5. -/
def initialThresholds : ThresholdState :=
  { zscoreModerate := 0.5, zscoreSignificant := 1.0, zscoreCritical := 1.5 }

/-- Embeds the moderate threshold NumberInput onChange handler of
Analysis.tsx line 647: a NaN input, modelled as none, restores 0.5. -/
def onModerateInputChange (st : ThresholdState) (val : Option ℚ) :
    ThresholdState :=
  { st with zscoreModerate := match val with | none => 0.5 | some v => v }

/-- Embeds the significant threshold NumberInput onChange handler of
Analysis.tsx line 663: a NaN input, modelled as none, restores 1.0. -/
def onSignificantInputChange (st : ThresholdState) (val : Option ℚ) :
    ThresholdState :=
  { st with zscoreSignificant := match val with | none => 1.0 | some v => v }

/-- Embeds the critical threshold NumberInput onChange handler of
Analysis.tsx line 679: a NaN input, modelled as none, restores 1.5. -/
def onCriticalInputChange (st : ThresholdState) (val : Option ℚ) :
    ThresholdState :=
  { st with zscoreCritical := match val with | none => 1.5 | some v => v }

/-- An indicator definition as built by the manual-input parser
(IndicatorDefinitionInput in the frontend types). -/
structure IndicatorDefinitionInput where
  id : String
  name : String
  unit : String
  target_direction : String
deriving DecidableEq

/-- A zone measurement row as built by the manual-input parser
(IndicatorLayerValue in the frontend types). -/
structure IndicatorLayerValue where
  zone_id : String
  zone_name : String
  indicator_id : String
  layer : String
  n_images : Option ℚ
  mean : Option ℚ
  std : Option ℚ
  min : Option ℚ
  max : Option ℚ
  unit : String
  area_sqm : ℚ
deriving DecidableEq

/-- The zone analysis request body, with the indicator_definitions record
modelled as an insertion-ordered association list. -/
structure ZoneAnalysisRequest where
  indicator_definitions : List (String × IndicatorDefinitionInput)
  zone_statistics : List IndicatorLayerValue
  zscore_moderate : ℚ
  zscore_significant : ℚ
  zscore_critical : ℚ
deriving DecidableEq

/-- Embeds the request construction of handleRunStage25, Analysis.tsx lines
321 to 326: the parsed data spread together with the three threshold state
values. -/
def buildStage25Request
    (parsedData : List (String × IndicatorDefinitionInput) ×
      List IndicatorLayerValue)
    (st : ThresholdState) : ZoneAnalysisRequest :=
  { indicator_definitions := parsedData.1,
    zone_statistics := parsedData.2,
    zscore_moderate := st.zscoreModerate,
    zscore_significant := st.zscoreSignificant,
    zscore_critical := st.zscoreCritical }

/-- C7: with no caller-supplied thresholds the analysis request carries
0.5, 1.0 and 1.5: these are the initial threshold state values, they are
what the request built from the initial state contains, and they are
restored when a threshold input is cleared to a non-number. -/
theorem default_thresholds
    (parsedData : List (String × IndicatorDefinitionInput) ×
      List IndicatorLayerValue)
    (st : ThresholdState) :
    initialThresholds.zscoreModerate = 0.5 ∧
    initialThresholds.zscoreSignificant = 1.0 ∧
    initialThresholds.zscoreCritical = 1.5 ∧
    (buildStage25Request parsedData initialThresholds).zscore_moderate = 0.5 ∧
    (buildStage25Request parsedData initialThresholds).zscore_significant
      = 1.0 ∧
    (buildStage25Request parsedData initialThresholds).zscore_critical = 1.5 ∧
    (onModerateInputChange st none).zscoreModerate = 0.5 ∧
    (onSignificantInputChange st none).zscoreSignificant = 1.0 ∧
    (onCriticalInputChange st none).zscoreCritical = 1.5 :=
  ⟨rfl, rfl, rfl, rfl, rfl, rfl, rfl, rfl, rfl⟩

/-! Section: Manual JSON input parsing, flat-array branch (C9, Analysis.tsx
handleParseJson lines 252 to 285) -/

/-- One row of the flat-array JSON input.  Each field the parser reads is
modelled as optional: none stands for a missing, null or undefined JSON
field. -/
structure FlatRow where
  Indicator : Option String
  indicator_id : Option String
  indicator_name : Option String
  unit : Option String
  Unit : Option String
  target_direction : Option String
  TargetDirection : Option String
  Zone : Option String
  zone_id : Option String
  zone_name : Option String
  Layer : Option String
  layer : Option String
  n_images : Option ℚ
  N : Option ℚ
  Mean : Option ℚ
  mean : Option ℚ
  Std : Option ℚ
  std : Option ℚ
  Min : Option ℚ
  min : Option ℚ
  Max : Option ℚ
  max : Option ℚ
  area_sqm : Option ℚ
  Area : Option ℚ
deriving DecidableEq

/-- JavaScript (x as string) or-default: null, undefined and the empty
string all fall back to the default. -/
def jsStringOr (a : Option String) (dflt : String) : String :=
  match a with
  | none => dflt
  | some s => if s = "" then dflt else s

/-- Embeds ((row.Indicator ?? row.indicator_id) as string) || two single
quotation marks, Analysis.tsx line 258. -/
def rowIndicatorId (r : FlatRow) : String :=
  jsStringOr (r.Indicator.or r.indicator_id) ""

/-- Embeds ((row.indicator_name ?? row.Indicator) as string) || indicatorId,
Analysis.tsx line 259. -/
def rowIndicatorName (r : FlatRow) : String :=
  jsStringOr (r.indicator_name.or r.Indicator) (rowIndicatorId r)

/-- Embeds the indicator definition built at Analysis.tsx lines 261 to 266:
id, name, unit and target_direction, the latter defaulting to INCREASE. -/
def mkIndicatorDef (r : FlatRow) : IndicatorDefinitionInput :=
  { id := rowIndicatorId r,
    name := rowIndicatorName r,
    unit := jsStringOr (r.unit.or r.Unit) "",
    target_direction :=
      jsStringOr (r.target_direction.or r.TargetDirection) "INCREASE" }

/-- Embeds the zone measurement row built at Analysis.tsx lines 268 to 280:
layer defaults to full and area_sqm to 0. -/
def mkZoneStat (r : FlatRow) : IndicatorLayerValue :=
  { zone_id := jsStringOr (r.Zone.or r.zone_id) "",
    zone_name := jsStringOr (r.zone_name.or r.Zone) "",
    indicator_id := rowIndicatorId r,
    layer := jsStringOr (r.Layer.or r.layer) "full",
    n_images := r.n_images.or r.N,
    mean := r.Mean.or r.mean,
    std := r.Std.or r.std,
    min := r.Min.or r.min,
    max := r.Max.or r.max,
    unit := jsStringOr (r.unit.or r.Unit) "",
    area_sqm := (r.area_sqm.or r.Area).getD 0 }

/-- Embeds the mutable indicatorDefs object update at Analysis.tsx lines 260
to 267: a definition is inserted only when no definition is stored yet under
that indicator id. -/
def insertDefIfAbsent (acc : List (String × IndicatorDefinitionInput))
    (r : FlatRow) : List (String × IndicatorDefinitionInput) :=
  if (acc.lookup (rowIndicatorId r)).isSome then acc
  else acc ++ [(rowIndicatorId r, mkIndicatorDef r)]

/-- The indicator_definitions map accumulated over the rows in input
order. -/
def parseFlatDefs (rows : List FlatRow) :
    List (String × IndicatorDefinitionInput) :=
  rows.foldl insertDefIfAbsent []

/-- The zone_statistics list: one measurement per input row, in order
(Analysis.tsx line 257). -/
def parseFlatStats (rows : List FlatRow) : List IndicatorLayerValue :=
  rows.map mkZoneStat

/-- The parsed data set by the flat-array branch of handleParseJson,
Analysis.tsx line 283. -/
def handleParseJsonFlat (rows : List FlatRow) :
    List (String × IndicatorDefinitionInput) × List IndicatorLayerValue :=
  (parseFlatDefs rows, parseFlatStats rows)

theorem lookup_append {β : Type} (l₁ l₂ : List (String × β)) (k : String) :
    (l₁ ++ l₂).lookup k = (l₁.lookup k).or (l₂.lookup k) := by
  induction l₁ with
  | nil => simp
  | cons a l ih =>
    rw [List.cons_append, List.lookup, List.lookup]
    cases h : (k == a.1) with
    | true => rfl
    | false => exact ih

theorem lookup_singleton_ne {β : Type} (k a : String) (v : β) (h : k ≠ a) :
    ([(a, v)].lookup k) = none := by
  rw [List.lookup]
  cases hk : (k == a) with
  | true => exact absurd (by simpa using hk) h
  | false => rfl

theorem lookup_none_not_mem {β : Type} (l : List (String × β)) (k : String)
    (h : l.lookup k = none) : k ∉ l.map Prod.fst := by
  induction l with
  | nil => simp
  | cons a l ih =>
    rw [List.lookup] at h
    cases hk : (k == a.1) with
    | true => rw [hk] at h; exact absurd h (by simp)
    | false =>
      rw [hk] at h
      simp only [List.map_cons, List.mem_cons]
      rintro (rfl | hmem)
      · simp at hk
      · exact ih h hmem

theorem parseFlatDefs_loop_lookup (rows : List FlatRow) :
    ∀ (acc : List (String × IndicatorDefinitionInput)) (k : String),
      (rows.foldl insertDefIfAbsent acc).lookup k =
        (acc.lookup k).or
          ((rows.find? (fun r => rowIndicatorId r == k)).map mkIndicatorDef)
    := by
  induction rows with
  | nil => intro acc k; simp
  | cons r rs ih =>
    intro acc k
    rw [List.foldl_cons, ih]
    by_cases hid : rowIndicatorId r = k
    · subst hid
      rw [List.find?_cons_of_pos _ (by simp)]
      unfold insertDefIfAbsent
      by_cases hs : (acc.lookup (rowIndicatorId r)).isSome = true
      · rw [if_pos hs]
        obtain ⟨v, hv⟩ := Option.isSome_iff_exists.mp hs
        rw [hv]
        rfl
      · rw [if_neg hs]
        have hnone : acc.lookup (rowIndicatorId r) = none :=
          Option.not_isSome_iff_eq_none.mp hs
        rw [lookup_append, hnone, List.lookup, beq_self_eq_true]
        rfl
    · rw [List.find?_cons_of_neg _ (by simp [hid])]
      unfold insertDefIfAbsent
      split
      · rfl
      · rw [lookup_append, lookup_singleton_ne _ _ _ (Ne.symm hid),
          Option.or_none]

theorem parseFlatDefs_loop_nodup (rows : List FlatRow) :
    ∀ (acc : List (String × IndicatorDefinitionInput)),
      (acc.map Prod.fst).Nodup →
      ((rows.foldl insertDefIfAbsent acc).map Prod.fst).Nodup := by
  induction rows with
  | nil => intro acc h; simpa using h
  | cons r rs ih =>
    intro acc h
    rw [List.foldl_cons]
    apply ih
    unfold insertDefIfAbsent
    split
    · exact h
    · rename_i hs
      have hnone : acc.lookup (rowIndicatorId r) = none :=
        Option.not_isSome_iff_eq_none.mp hs
      rw [List.map_append]
      simp only [List.map_cons, List.map_nil]
      rw [List.nodup_append]
      refine ⟨h, List.nodup_singleton _, ?_⟩
      intro a ha hb
      have hak : a = rowIndicatorId r := by simpa using hb
      subst hak
      exact lookup_none_not_mem _ _ hnone ha

/-- C9: on the flat-array input branch, parsed measurements are one per row
in order; a missing layer defaults to full and a missing area to 0; a
missing target direction defaults to INCREASE; and the indicator
definitions map has no duplicate ids and maps every id to the definition
built from the first row carrying that id, in input order. -/
theorem handleParseJson_flat_spec (rows : List FlatRow) :
    handleParseJsonFlat rows = (parseFlatDefs rows, rows.map mkZoneStat) ∧
    (∀ r ∈ rows, r.Layer = none → r.layer = none →
      (mkZoneStat r).layer = "full") ∧
    (∀ r ∈ rows, r.area_sqm = none → r.Area = none →
      (mkZoneStat r).area_sqm = 0) ∧
    (∀ r ∈ rows, r.target_direction = none → r.TargetDirection = none →
      (mkIndicatorDef r).target_direction = "INCREASE") ∧
    ((parseFlatDefs rows).map Prod.fst).Nodup ∧
    (∀ k : String, (parseFlatDefs rows).lookup k =
      (rows.find? (fun r => rowIndicatorId r == k)).map mkIndicatorDef) := by
  refine ⟨rfl, ?_, ?_, ?_, ?_, ?_⟩
  · intro r _ h1 h2
    simp [mkZoneStat, jsStringOr, h1, h2, Option.or]
  · intro r _ h1 h2
    simp [mkZoneStat, h1, h2, Option.or]
  · intro r _ h1 h2
    simp [mkIndicatorDef, jsStringOr, h1, h2, Option.or]
  · exact parseFlatDefs_loop_nodup rows [] (by simp)
  · intro k
    rw [parseFlatDefs, parseFlatDefs_loop_lookup rows [] k]
    rfl

/-- A sample flat input row with indicator IND_GVI whose layer, area,
and target direction fields are all absent. -/
def sampleFlatRow : FlatRow :=
  { Indicator := some "IND_GVI", indicator_id := none,
    indicator_name := some "Green View Index", unit := some "pct",
    Unit := none, target_direction := none, TargetDirection := none,
    Zone := some "Z1", zone_id := none, zone_name := none,
    Layer := none, layer := none, n_images := some 4, N := none,
    Mean := some 10, mean := none, Std := some 2, std := none,
    Min := some 8, min := none, Max := some 12, max := none,
    area_sqm := none, Area := none }

/-- A second row for the same indicator id, with a different name, so that
first-row-wins in the definitions map is observable. -/
def sampleFlatRow2 : FlatRow :=
  { sampleFlatRow with
    indicator_name := some "Duplicate Name",
    Zone := some "Z2",
    Mean := some 20 }

/-- C9 witness: the parser defaults evaluated on the sample rows, via the
main theorem; the definitions map keeps the first row for IND_GVI. -/
theorem handleParseJson_flat_spec_witness :
    (mkZoneStat sampleFlatRow).layer = "full" ∧
    (mkZoneStat sampleFlatRow).area_sqm = 0 ∧
    (mkIndicatorDef sampleFlatRow).target_direction = "INCREASE" ∧
    (parseFlatDefs [sampleFlatRow, sampleFlatRow2]).lookup "IND_GVI"
      = some (mkIndicatorDef sampleFlatRow) := by
  have h := handleParseJson_flat_spec [sampleFlatRow, sampleFlatRow2]
  refine ⟨h.2.1 sampleFlatRow (by simp) rfl rfl,
    h.2.2.1 sampleFlatRow (by simp) rfl rfl,
    h.2.2.2.1 sampleFlatRow (by simp) rfl rfl, ?_⟩
  rw [h.2.2.2.2.2 "IND_GVI"]
  rfl

/-! Section: Severity classifier (C1), modelled from the spec -/

/-- Modelled from the spec: the target direction of an indicator,
section 3 of the specification (INCREASE, DECREASE or NEUTRAL). -/
inductive TargetDirection where
  | INCREASE
  | DECREASE
  | NEUTRAL
deriving DecidableEq

/-- Modelled from the spec: the three caller-supplied z-score thresholds of
section 4.3. -/
structure Thresholds where
  moderate : ℚ
  significant : ℚ
  critical : ℚ
deriving DecidableEq

/-- Modelled from the spec, section 4.3: the adverse score of a z-score
under a target direction; the backend Severity Classifier source is not
among the available files. -/
def adverseScore (dir : TargetDirection) (z : ℚ) : ℚ :=
  match dir with
  | .INCREASE => -z
  | .DECREASE => z
  | .NEUTRAL => |z|

/-- Modelled from the spec, section 4.3: classification label and priority
from a nullable z-score, the target direction and the thresholds; a null
z-score yields Unknown with priority 0. -/
def classifySeverity (t : Thresholds) (dir : TargetDirection)
    (z : Option ℚ) : String × ℤ :=
  match z with
  | none => ("Unknown", 0)
  | some zv =>
    if adverseScore dir zv < t.moderate then ("Good", 0)
    else if adverseScore dir zv < t.significant then ("Moderate", 2)
    else if adverseScore dir zv < t.critical then ("Poor", 3)
    else ("Critical", 5)

/-- Modelled from the spec, sections 3 and 4.4: a stat enters a problem
list exactly when its priority reaches the floor of 2. -/
def isNotableProblem (priority : ℤ) : Bool :=
  2 ≤ priority

/-- C1: under increasing thresholds the severity classifier realizes the
documented adverse-score bands for a present z-score, and a null z-score is
classified Unknown with priority 0 and never enters a problem list. -/
theorem classifySeverity_bands (t : Thresholds) (dir : TargetDirection)
    (z : ℚ) (hms : t.moderate < t.significant)
    (hsc : t.significant < t.critical) :
    adverseScore TargetDirection.INCREASE z = -z ∧
    adverseScore TargetDirection.DECREASE z = z ∧
    adverseScore TargetDirection.NEUTRAL z = |z| ∧
    (adverseScore dir z < t.moderate →
      classifySeverity t dir (some z) = ("Good", 0)) ∧
    (t.moderate ≤ adverseScore dir z → adverseScore dir z < t.significant →
      classifySeverity t dir (some z) = ("Moderate", 2)) ∧
    (t.significant ≤ adverseScore dir z → adverseScore dir z < t.critical →
      classifySeverity t dir (some z) = ("Poor", 3)) ∧
    (t.critical ≤ adverseScore dir z →
      classifySeverity t dir (some z) = ("Critical", 5)) ∧
    classifySeverity t dir none = ("Unknown", 0) ∧
    isNotableProblem (classifySeverity t dir none).2 = false := by
  refine ⟨rfl, rfl, rfl, ?_, ?_, ?_, ?_, rfl, rfl⟩
  · intro h
    rw [classifySeverity, if_pos h]
  · intro h1 h2
    rw [classifySeverity, if_neg (by linarith), if_pos h2]
  · intro h1 h2
    rw [classifySeverity, if_neg (by linarith), if_neg (by linarith),
      if_pos h2]
  · intro h1
    rw [classifySeverity, if_neg (by linarith), if_neg (by linarith),
      if_neg (by linarith)]

/-- C1 witness: the spec example of section 8 for indicator IND_GVI under
the default thresholds, via the main theorem: an adverse score of about
1.2247 lands in the Poor band and its mirror image in the Good band. -/
theorem classifySeverity_bands_witness :
    classifySeverity { moderate := 0.5, significant := 1.0, critical := 1.5 }
      TargetDirection.INCREASE (some (-49 / 40)) = ("Poor", 3) ∧
    classifySeverity { moderate := 0.5, significant := 1.0, critical := 1.5 }
      TargetDirection.INCREASE (some (49 / 40)) = ("Good", 0) ∧
    classifySeverity { moderate := 0.5, significant := 1.0, critical := 1.5 }
      TargetDirection.INCREASE none = ("Unknown", 0) := by
  refine ⟨?_, ?_, ?_⟩
  · exact (classifySeverity_bands _ TargetDirection.INCREASE (-49 / 40)
      (by norm_num) (by norm_num)).2.2.2.2.2.1
      (by norm_num [adverseScore]) (by norm_num [adverseScore])
  · exact (classifySeverity_bands _ TargetDirection.INCREASE (49 / 40)
      (by norm_num) (by norm_num)).2.2.2.1 (by norm_num [adverseScore])
  · exact (classifySeverity_bands
      { moderate := 0.5, significant := 1.0, critical := 1.5 }
      TargetDirection.INCREASE 0 (by norm_num) (by norm_num)).2.2.2.2.2.2.2.1

/-! Section: Threshold validation (C3), modelled from the spec -/

/-- Modelled from the spec, sections 6 and 7: the threshold configuration of
an analysis request; the backend request validation source is not among the
available files. -/
structure ZoneAnalysisConfig where
  zscore_moderate : ℚ
  zscore_significant : ℚ
  zscore_critical : ℚ
deriving DecidableEq

/-- Modelled from the spec, section 7, error class ConfigurationError: the
descriptive message for thresholds that are not strictly increasing. -/
def configurationErrorMsg : String :=
  "ConfigurationError: z-score thresholds must be strictly increasing: require moderate < significant < critical"

/-- Modelled from the spec, section 7: request validation fails the whole
request with a descriptive ConfigurationError when the thresholds are not
strictly increasing. -/
def validateThresholds (c : ZoneAnalysisConfig) : Except String Unit :=
  if c.zscore_moderate < c.zscore_significant ∧
      c.zscore_significant < c.zscore_critical then Except.ok ()
  else Except.error configurationErrorMsg

/-- Modelled from the spec, sections 4.3 and 7: the diagnostic stage of the
engine validates the thresholds and only then classifies each (z-score,
target direction) input; a rejected request produces no diagnostic
output. -/
def runSeverityStage (c : ZoneAnalysisConfig)
    (inputs : List (Option ℚ × TargetDirection)) :
    Except String (List (String × ℤ)) :=
  match validateThresholds c with
  | Except.error e => Except.error e
  | Except.ok _ => Except.ok (inputs.map (fun i =>
      classifySeverity
        { moderate := c.zscore_moderate, significant := c.zscore_significant,
          critical := c.zscore_critical } i.2 i.1))

/-- C1 and C3 share the classifier; this lemma keeps the validation branch
explicit: an invalid configuration yields exactly the configuration
error. -/
theorem validateThresholds_invalid (c : ZoneAnalysisConfig)
    (h : ¬ (c.zscore_moderate < c.zscore_significant ∧
      c.zscore_significant < c.zscore_critical)) :
    validateThresholds c = Except.error configurationErrorMsg := by
  rw [validateThresholds, if_neg h]

/-- C3: a request whose thresholds are not strictly increasing is failed
whole with the descriptive ConfigurationError and yields no diagnostic
output, while a request with strictly increasing thresholds is accepted. -/
theorem invalid_thresholds_rejected (c : ZoneAnalysisConfig)
    (inputs : List (Option ℚ × TargetDirection))
    (h : ¬ (c.zscore_moderate < c.zscore_significant ∧
      c.zscore_significant < c.zscore_critical)) :
    runSeverityStage c inputs = Except.error configurationErrorMsg ∧
    (∀ out : List (String × ℤ), runSeverityStage c inputs ≠ Except.ok out) ∧
    (∀ c2 : ZoneAnalysisConfig, c2.zscore_moderate < c2.zscore_significant →
      c2.zscore_significant < c2.zscore_critical →
      ∃ out, runSeverityStage c2 inputs = Except.ok out) := by
  have he : runSeverityStage c inputs = Except.error configurationErrorMsg := by
    rw [runSeverityStage, validateThresholds_invalid c h]
  refine ⟨he, ?_, ?_⟩
  · intro out hc
    rw [he] at hc
    exact Except.noConfusion hc
  · intro c2 h1 h2
    exact ⟨_, by rw [runSeverityStage, validateThresholds, if_pos ⟨h1, h2⟩]⟩

/-- C3 witness: the inverted thresholds of the spec example, moderate 1.0
and significant 0.5, are rejected with the ConfigurationError, via the main
theorem. -/
theorem invalid_thresholds_rejected_witness :
    runSeverityStage
      { zscore_moderate := 1.0, zscore_significant := 0.5,
        zscore_critical := 1.5 }
      [(some 2, TargetDirection.DECREASE)]
      = Except.error configurationErrorMsg :=
  (invalid_thresholds_rejected
    { zscore_moderate := 1.0, zscore_significant := 0.5,
      zscore_critical := 1.5 }
    [(some 2, TargetDirection.DECREASE)] (by norm_num)).1

/-! Section: Zone score normalizer (C2), modelled from the spec -/

/-- Modelled from the spec, section 3: the per (indicator, layer) population
statistic consumed by the normalizer; the standard deviation is nullable
because it is undefined for fewer than two zones.  The backend Population
Statistics Builder source is not among the available files. -/
structure LayerPopulationStat where
  N : ℕ
  Mean : ℚ
  Std : Option ℚ
deriving DecidableEq

/-- Modelled from the spec, section 4.2: the z-score is the zone mean minus
the population mean over the population standard deviation, or null when
that standard deviation is 0 or null; the division is performed only in the
branch where the standard deviation is a nonzero rational, so the result is
a genuine rational whenever it is present. -/
def zScoreOf (zoneMean : ℚ) (pop : LayerPopulationStat) : Option ℚ :=
  match pop.Std with
  | none => none
  | some s => if s = 0 then none else some ((zoneMean - pop.Mean) / s)

/-- Modelled from the spec, section 4.1: the population statistic is
well-formed for the list of zone means it summarizes when N counts the
zones, the Mean is their average, and the Std is null for fewer than two
zones and otherwise the nonnegative square root of the mean squared
deviation.  The square root of a rational sample variance need not be
rational, so the builder is characterized by the defining equation of its
standard deviation rather than recomputed. -/
def popStatWF (pop : LayerPopulationStat) (means : List ℚ) : Bool :=
  decide (pop.N = means.length) &&
    (if means.length < 2 then decide (pop.Std = none)
     else
       decide (pop.Mean * means.length = means.sum) &&
         (match pop.Std with
          | none => false
          | some s =>
            decide (0 ≤ s) &&
              decide (s * s * means.length =
                (means.map (fun x => (x - pop.Mean) ^ 2)).sum)))

/-- C2: for a well-formed population the normalizer divides by the standard
deviation exactly when it is present and nonzero, returns null exactly when
the standard deviation is 0 or null, and in particular returns null whenever
fewer than two zones hold data; every present result is the stated
quotient, so no division by zero and no non-finite value can occur. -/
theorem zScore_null_iff (zoneMean : ℚ) (pop : LayerPopulationStat)
    (means : List ℚ) (hwf : popStatWF pop means = true) :
    (∀ s : ℚ, pop.Std = some s → s ≠ 0 →
      zScoreOf zoneMean pop = some ((zoneMean - pop.Mean) / s)) ∧
    (zScoreOf zoneMean pop = none ↔ pop.Std = none ∨ pop.Std = some 0) ∧
    (means.length < 2 → zScoreOf zoneMean pop = none) := by
  refine ⟨?_, ?_, ?_⟩
  · intro s hs hsne
    simp [zScoreOf, hs, hsne]
  · cases hs : pop.Std with
    | none => simp [zScoreOf, hs]
    | some s =>
      by_cases hs0 : s = 0
      · subst hs0
        simp [zScoreOf, hs]
      · simp [zScoreOf, hs, hs0]
  · intro hlen
    unfold popStatWF at hwf
    rw [if_pos hlen] at hwf
    simp only [Bool.and_eq_true, decide_eq_true_eq] at hwf
    simp [zScoreOf, hwf.2]

/-- C2 witness: the population of zone means 0 and 2 has mean 1 and
standard deviation 1; the normalizer maps zone mean 0 to the quotient minus
one, via the main theorem. -/
theorem zScore_null_iff_witness :
    popStatWF { N := 2, Mean := 1, Std := some 1 } [0, 2] = true ∧
    zScoreOf 0 { N := 2, Mean := 1, Std := some 1 } = some ((0 - 1) / 1) := by
  have hwf : popStatWF { N := 2, Mean := 1, Std := some 1 } [0, 2] = true := by
    norm_num [popStatWF]
  exact ⟨hwf,
    (zScore_null_iff 0 { N := 2, Mean := 1, Std := some 1 } [0, 2] hwf).1 1
      rfl (by norm_num)⟩

/-! Section: Correlation analyzer (C4), modelled from the spec -/

/-- Modelled from the spec, section 4.5: within one layer, each zone row
assigns an optional mean value to each indicator id; the paired sample for
two indicators keeps the zones holding a value for both.  The backend
Correlation Analyzer source is not among the available files. -/
def pairedValues (data : List (String → Option ℚ)) (i j : String) :
    List (ℚ × ℚ) :=
  data.filterMap (fun row =>
    match row i, row j with
    | some x, some y => some (x, y)
    | _, _ => none)

/-- Mean of a rational sample. -/
def listMean (xs : List ℚ) : ℚ := xs.sum / xs.length

/-- Sum of products of deviations of the two coordinates from their means,
the numerator of Pearson correlation. -/
def covSum (ps : List (ℚ × ℚ)) : ℚ :=
  (ps.map (fun p => (p.1 - listMean (ps.map Prod.fst)) *
    (p.2 - listMean (ps.map Prod.snd)))).sum

/-- Sum of squared deviations of the first coordinates from their mean. -/
def varFstSum (ps : List (ℚ × ℚ)) : ℚ :=
  (ps.map (fun p => (p.1 - listMean (ps.map Prod.fst)) ^ 2)).sum

/-- Sum of squared deviations of the second coordinates from their mean. -/
def varSndSum (ps : List (ℚ × ℚ)) : ℚ :=
  (ps.map (fun p => (p.2 - listMean (ps.map Prod.snd)) ^ 2)).sum

/-- Modelled from the spec, section 4.5: Pearson correlation of the paired
sample, as a real number. -/
noncomputable def pearsonR (ps : List (ℚ × ℚ)) : ℝ :=
  (covSum ps : ℝ) / Real.sqrt ((varFstSum ps : ℝ) * (varSndSum ps : ℝ))

/-- Modelled from the spec, section 4.5: the t statistic of a correlation,
r times the square root of (N minus 2) over (1 minus r squared). -/
noncomputable def tStatistic (ps : List (ℚ × ℚ)) : ℝ :=
  pearsonR ps * Real.sqrt (((ps.length - 2 : ℕ) : ℝ) / (1 - pearsonR ps ^ 2))

/-- Modelled from the spec, sections 3 and 4.5: the correlation cell for a
pair of indicators in one layer, given any two-tailed p-value function of
the t statistic and the degrees of freedom.  The diagonal is r equals 1 and
p equals 0 by convention; a pair of distinct indicators with fewer than 3
paired zones is null; perfect correlation, characterized without square
roots by the squared covariance sum reaching the product of the two squared
deviation sums, is treated as p equals 0. -/
noncomputable def correlationCell (pFromT : ℝ → ℕ → ℝ)
    (data : List (String → Option ℚ)) (i j : String) : Option (ℝ × ℝ) :=
  if i = j then some (1, 0)
  else if (pairedValues data i j).length < 3 then none
  else some (pearsonR (pairedValues data i j),
    if covSum (pairedValues data i j) ^ 2 =
        varFstSum (pairedValues data i j) * varSndSum (pairedValues data i j)
    then 0
    else pFromT (tStatistic (pairedValues data i j))
      ((pairedValues data i j).length - 2))

theorem pairedValues_swap (data : List (String → Option ℚ)) (i j : String) :
    pairedValues data j i = (pairedValues data i j).map Prod.swap := by
  unfold pairedValues
  induction data with
  | nil => rfl
  | cons row rows ih =>
    simp only [List.filterMap_cons]
    cases hi : row i <;> cases hj : row j <;> simp [hi, hj, ih]

theorem map_swap_fst (ps : List (ℚ × ℚ)) :
    (ps.map Prod.swap).map Prod.fst = ps.map Prod.snd := by
  rw [List.map_map]
  rfl

theorem map_swap_snd (ps : List (ℚ × ℚ)) :
    (ps.map Prod.swap).map Prod.snd = ps.map Prod.fst := by
  rw [List.map_map]
  rfl

theorem covSum_swap (ps : List (ℚ × ℚ)) :
    covSum (ps.map Prod.swap) = covSum ps := by
  unfold covSum
  rw [map_swap_fst, map_swap_snd, List.map_map]
  congr 1
  exact List.map_congr_left (fun p _ => mul_comm _ _)

theorem varFstSum_swap (ps : List (ℚ × ℚ)) :
    varFstSum (ps.map Prod.swap) = varSndSum ps := by
  unfold varFstSum varSndSum
  rw [map_swap_fst, List.map_map]
  rfl

theorem varSndSum_swap (ps : List (ℚ × ℚ)) :
    varSndSum (ps.map Prod.swap) = varFstSum ps := by
  unfold varFstSum varSndSum
  rw [map_swap_snd, List.map_map]
  rfl

theorem pearsonR_swap (ps : List (ℚ × ℚ)) :
    pearsonR (ps.map Prod.swap) = pearsonR ps := by
  unfold pearsonR
  rw [covSum_swap, varFstSum_swap, varSndSum_swap, mul_comm]

theorem tStatistic_swap (ps : List (ℚ × ℚ)) :
    tStatistic (ps.map Prod.swap) = tStatistic ps := by
  unfold tStatistic
  rw [pearsonR_swap, List.length_map]

/-- C4: for any p-value function and any layer data, the correlation cell is
symmetric in its indicator pair, the diagonal cell is r equals 1 with p
equals 0, and a pair of distinct indicators with fewer than 3 zones holding
paired data yields a null cell rather than zero. -/
theorem correlation_symm_diag_null (pFromT : ℝ → ℕ → ℝ)
    (data : List (String → Option ℚ)) (i j : String) :
    correlationCell pFromT data i j = correlationCell pFromT data j i ∧
    correlationCell pFromT data i i = some (1, 0) ∧
    (i ≠ j → (pairedValues data i j).length < 3 →
      correlationCell pFromT data i j = none) := by
  refine ⟨?_, by rw [correlationCell, if_pos rfl], ?_⟩
  · by_cases hij : i = j
    · subst hij; rfl
    · unfold correlationCell
      rw [if_neg hij, if_neg (Ne.symm hij), pairedValues_swap data i j,
        List.length_map, covSum_swap, varFstSum_swap, varSndSum_swap,
        pearsonR_swap, tStatistic_swap,
        mul_comm (varSndSum (pairedValues data i j))]
  · intro hij hlen
    rw [correlationCell, if_neg hij, if_pos hlen]

/-- C4 witness: a layer with only two zones holding values for the distinct
indicators IND_A and IND_B yields a null correlation cell, via the main
theorem. -/
theorem correlation_symm_diag_null_witness :
    correlationCell (fun _ _ => 0)
      [fun s => if s = "IND_A" then some 1 else
        if s = "IND_B" then some 2 else none,
       fun s => if s = "IND_A" then some 3 else
        if s = "IND_B" then some 5 else none]
      "IND_A" "IND_B" = none :=
  (correlation_symm_diag_null (fun _ _ => 0) _ "IND_A" "IND_B").2.2
    (by decide) (by decide)
